import Mathlib

/-!
Verification of the Mercury RPC core (`src/mercury_core.c`) against its
natural-language specification.

The development is a shallow embedding: the functions of `mercury_core.c`
are translated into executable Lean definitions.  Machine integers are
modelled as `Nat`/`Int` with explicit wrap-around where it matters;
out-parameters become components of returned tuples or structures;
pointers that need an identity are modelled by a `self : Nat` field;
calls into external collaborators (the NA network layer, the header
codec, the hash/queue/list containers, the bulk layer) are modelled by
explicit oracle parameters or by definitions whose doc comment starts
with `Modelled from the spec:`.
-/

/-- Error taxonomy of the core, from `mercury_core.h` via
`HG_Error_to_string` (`mercury_core.c:766-781`); `HG_NA_ERROR` is the
generic wrap of a transport failure. -/
inductive hg_return_t where
  | HG_SUCCESS
  | HG_TIMEOUT
  | HG_INVALID_PARAM
  | HG_SIZE_ERROR
  | HG_NOMEM_ERROR
  | HG_PROTOCOL_ERROR
  | HG_NO_MATCH
  | HG_CHECKSUM_ERROR
  | HG_NA_ERROR
deriving DecidableEq, Repr

/-- Request header (`struct hg_header_request`): the fields the core
reads and writes are the RPC `id` and the `cookie`.  The codec is
external; the header is modelled as a record of those fields. -/
structure ReqHeader where
  id : Nat
  cookie : Nat
deriving DecidableEq, Repr

/-- Response header (`struct hg_header_response`): the core only
touches its `cookie` field. -/
structure RespHeader where
  cookie : Nat
deriving DecidableEq, Repr

/-- Contents of a message buffer.  The codec is external; a buffer is
modelled by the header value that was last encoded into it (`raw` for a
freshly allocated buffer with no encoded header). -/
inductive BufContent where
  | raw
  | req (h : ReqHeader)
  | resp (h : RespHeader)
deriving DecidableEq, Repr

/-- Modelled from the spec: the external header codec
(`hg_proc_header_request(..., HG_DECODE)`); decoding succeeds exactly on
a buffer into which a request header was encoded and returns that
header.  `hg_proc_header_request_verify` is modelled as succeeding on
every decoded header. -/
def hg_proc_header_request_decode : BufContent → Option ReqHeader
  | BufContent.req h => some h
  | _ => none

/-- Modelled from the spec: the external header codec
(`hg_proc_header_response(..., HG_DECODE)`), as for requests. -/
def hg_proc_header_response_decode : BufContent → Option RespHeader
  | BufContent.resp h => some h
  | _ => none

/-- Modelled from the spec: `hg_proc_header_request_init(id, bulk, &h)`
fills the id, and the runtime currently sets the cookie to zero
(glossary: "the runtime currently sets it to zero"); the bulk handle is
out of scope. -/
def hg_proc_header_request_init (id : Nat) : ReqHeader :=
  { id := id, cookie := 0 }

/-- Modelled from the spec: `hg_proc_header_response_init(&h)` fills the
header with default values; the core then overwrites the cookie. -/
def hg_proc_header_response_init : RespHeader :=
  { cookie := 0 }

/-- The tag-generation state of `struct hg_class`
(`mercury_core.c:51-59`): the atomic 32-bit counter `request_tag` and
the transport-supplied maximum `request_max_tag`.  The 32-bit counter is
modelled as a `Nat` below `2 ^ 32`. -/
structure hg_class_t where
  request_tag : Nat
  request_max_tag : Nat
deriving DecidableEq, Repr

/-- `hg_gen_request_tag` (`mercury_core.c:249-263`): if the counter has
reached `request_max_tag`, the compare-and-swap resets it to 0 and the
call returns 0; otherwise the counter is atomically incremented (32-bit
wrap-around) and the new value is returned. -/
def hg_gen_request_tag (c : hg_class_t) : Nat × hg_class_t :=
  if c.request_tag = c.request_max_tag then
    (0, { c with request_tag := 0 })
  else
    let t := (c.request_tag + 1) % 2 ^ 32
    (t, { c with request_tag := t })

/-- Successive tag allocations: the list of tags returned by `n`
back-to-back calls to `hg_gen_request_tag`. -/
def tagSeq (c : hg_class_t) : Nat → List Nat
  | 0 => []
  | n + 1 =>
    let r := hg_gen_request_tag c
    r.1 :: tagSeq r.2 n

/-- `struct hg_rpc_info` (`mercury_core.c:73-77`): target-side RPC
callback (`none` models a NULL function pointer; `some k` a callback
identity), user data and its free callback. -/
structure hg_rpc_info where
  rpc_cb : Option Nat
  data : Nat
  free_callback : Option Nat
deriving DecidableEq, Repr

/-- Modelled from the spec: `hg_hash_table_insert` of the external
container layer; per the spec (§9) "the source silently overwrites
(hash-table insert of existing key)", and allocation is modelled as
succeeding.  The function map itself is modelled as
`Nat → Option hg_rpc_info`. -/
def hg_hash_table_insert (m : Nat → Option hg_rpc_info) (key : Nat)
    (v : hg_rpc_info) : Nat → Option hg_rpc_info :=
  fun k => if k = key then some v else m k

/-- `HG_Register_rpc` (`mercury_core.c:979-1025`): hashes the name with
the external string hash (here a parameter `hash`), stores
`{id → (cb, NULL, NULL)}` via `hg_hash_table_insert`, and returns the
id (`ret = *id`); allocation failures (the only failure paths besides a
NULL class) are modelled as not occurring.  Returns the id and the
updated function map. -/
def HG_Register_rpc (hash : String → Nat) (func_map : Nat → Option hg_rpc_info)
    (func_name : String) (rpc_cb : Option Nat) :
    Nat × (Nat → Option hg_rpc_info) :=
  let id := hash func_name
  let info : hg_rpc_info := { rpc_cb := rpc_cb, data := 0, free_callback := none }
  (id, hg_hash_table_insert func_map id info)

/-- One HG handle, `struct hg_handle` (`mercury_core.c:80-101`).
`self` models the pointer identity of the malloc'd handle (used by the
processing list's pointer-equality removal); `callback`/`arg` are the
user completion callback and its argument; buffers are modelled by
their contents and sizes; `ref_count` is the atomic 32-bit reference
count (as `Int`, so that an excess decrement is visible as a negative
value). -/
structure HgHandle where
  self : Nat
  callback : Option Nat
  arg : Nat
  id : Nat
  cookie : Nat
  tag : Nat
  addr : Nat
  addr_mine : Bool
  in_buf : BufContent
  in_buf_size : Nat
  out_buf : BufContent
  out_buf_size : Nat
  ref_count : Int
deriving DecidableEq, Repr

/-- The handle as initialized by `hg_create` (`mercury_core.c:311-343`)
when every allocation succeeds: NULL callback and argument, zero id,
cookie and tag, NULL address not owned, both buffers allocated at the
transport's max expected size `sz` with nothing encoded yet, and
`ref_count = 1`. -/
def hg_handle_init (sz : Nat) (self : Nat) : HgHandle :=
  { self := self, callback := none, arg := 0, id := 0, cookie := 0, tag := 0,
    addr := 0, addr_mine := false,
    in_buf := BufContent.raw, in_buf_size := sz,
    out_buf := BufContent.raw, out_buf_size := sz,
    ref_count := 1 }

/-- The per-context state the core mutates, from `struct hg_context`
(`mercury_core.c:62-70`): the FIFO completion queue (`hg_queue_push_head` is
modelled as cons, `hg_queue_pop_tail` as taking the last element) and the
processing list of handles posted for unexpected receive (stored by pointer,
so modelled as the list of their `self` identities).  The mutex/condvar pair
and the external bulk context carry no core-visible data. -/
structure hg_context_t where
  completion_queue : List HgHandle
  processing_list : List Nat
deriving DecidableEq, Repr

/-- User-visible callback invocations.  `rpc cb` records a call of the
registered RPC callback `cb` (`hg_rpc_info->rpc_cb`, invoked at
`mercury_core.c:569`); `completion cb arg` records a call of a handle
completion callback (`hg_handle->callback`, invoked with its
`hg_cb_info` at `mercury_core.c:1515`). -/
inductive UserCb where
  | rpc (cb : Nat)
  | completion (cb : Nat) (arg : Nat)
deriving DecidableEq, Repr

/-- Operations posted against the NA layer, keyed by the tag the core
passes them. -/
inductive NaOp where
  | msg_recv_expected (tag : Nat)
  | msg_send_unexpected (tag : Nat)
  | msg_send_expected (tag : Nat)
  | msg_recv_unexpected
deriving DecidableEq, Repr

/-- `hg_complete` (`mercury_core.c:580-608`): push the handle onto the
head of the context's completion queue under the queue mutex and signal
the condition variable.  The queue-node allocation is modelled as
succeeding. -/
def hg_complete (ctx : hg_context_t) (h : HgHandle) :
    hg_return_t × hg_context_t :=
  (hg_return_t.HG_SUCCESS,
   { ctx with completion_queue := h :: ctx.completion_queue })

/-- `hg_process` (`mercury_core.c:496-577`): decode and verify the
request header from `in_buf`, store its `id` and `cookie` on the handle,
look up the registration, bump the reference count so that a
`HG_Destroy` inside the user RPC callback only schedules the free, and
invoke the registered RPC callback (recorded as a `UserCb.rpc` event;
the callback body is user code).  Returns the status, the updated
handle, and the callback events. -/
def hg_process (func_map : Nat → Option hg_rpc_info) (h : HgHandle) :
    hg_return_t × HgHandle × List UserCb :=
  match hg_proc_header_request_decode h.in_buf with
  | none => (hg_return_t.HG_PROTOCOL_ERROR, h, [])
  | some hdr =>
    let h1 := { h with id := hdr.id, cookie := hdr.cookie }
    match func_map hdr.id with
    | none => (hg_return_t.HG_NO_MATCH, h1, [])
    | some info =>
      match info.rpc_cb with
      | none => (hg_return_t.HG_INVALID_PARAM, h1, [])
      | some cb =>
        (hg_return_t.HG_SUCCESS,
         { h1 with ref_count := h1.ref_count + 1 }, [UserCb.rpc cb])

/-- One pending NA completion, as drained by the `NA_Trigger` loop of
`hg_progress` (`mercury_core.c:663-666`).  Each carries the
`na_cb_info` fields the corresponding core callback reads: the `ret`
status, the handle stored in the callback argument slot (its buffers
hold what the transport wrote into them), and for unexpected receives
the source address, tag and actual size. -/
inductive na_completion where
  | send_input (ret_ok : Bool) (h : HgHandle)
  | recv_input (ret_ok : Bool) (h : HgHandle) (source : Nat) (tag : Nat)
      (actual_buf_size : Nat)
  | send_output (ret_ok : Bool) (h : HgHandle)
  | recv_output (ret_ok : Bool) (h : HgHandle)
deriving Repr

/-- Result of running one NA callback: the updated context, the handle
handed to the user RPC callback when `hg_process` dispatched one, and
the user-callback events. -/
structure NaCbResult where
  context : hg_context_t
  dispatched : Option HgHandle
  events : List UserCb
deriving Repr

/-- The four NA callbacks of the core.
`hg_send_input_cb` (`mercury_core.c:387-399`) does nothing.
`hg_recv_input_cb` (`mercury_core.c:402-439`) fills the handle's
address (owned), tag, checks the actual size against the buffer size,
removes the handle from the processing list by pointer equality, and
runs `hg_process`.
`hg_send_output_cb` (`mercury_core.c:442-458`) and `hg_recv_output_cb`
(`mercury_core.c:461-493`, after decoding and verifying the response
header) call `hg_complete`. -/
def na_cb_run (func_map : Nat → Option hg_rpc_info) (ctx : hg_context_t) :
    na_completion → NaCbResult
  | na_completion.send_input _ _ => ⟨ctx, none, []⟩
  | na_completion.recv_input ret_ok h source tag actual_buf_size =>
    if ret_ok = false then ⟨ctx, none, []⟩
    else
      let h1 := { h with addr := source, addr_mine := true, tag := tag }
      if actual_buf_size ≠ h1.in_buf_size then ⟨ctx, none, []⟩
      else if h1.self ∈ ctx.processing_list then
        let ctx1 := { ctx with processing_list := ctx.processing_list.erase h1.self }
        let pr := hg_process func_map h1
        ⟨ctx1, if pr.1 = hg_return_t.HG_SUCCESS then some pr.2.1 else none, pr.2.2⟩
      else ⟨ctx, none, []⟩
  | na_completion.send_output ret_ok h =>
    if ret_ok then ⟨(hg_complete ctx h).2, none, []⟩ else ⟨ctx, none, []⟩
  | na_completion.recv_output ret_ok h =>
    if ret_ok = false then ⟨ctx, none, []⟩
    else
      match hg_proc_header_response_decode h.out_buf with
      | some _ => ⟨(hg_complete ctx h).2, none, []⟩
      | none => ⟨ctx, none, []⟩

/-- The `NA_Trigger` drain loop of `hg_progress`
(`mercury_core.c:663-666`): run every pending NA completion in order,
threading the context and collecting the user-callback events. -/
def na_trigger_drain (func_map : Nat → Option hg_rpc_info) :
    hg_context_t → List na_completion → hg_context_t × List UserCb
  | ctx, [] => (ctx, [])
  | ctx, c :: cs =>
    let r := na_cb_run func_map ctx c
    let rest := na_trigger_drain func_map r.context cs
    (rest.1, r.events ++ rest.2)

/-- `hg_listen` (`mercury_core.c:611-652`): under the processing-list
mutex, while the list is shorter than `HG_MAX_PROCESSING_LIST_SIZE`
(= 1), create a fresh handle, append it, and post an unexpected receive
for it whose completion callback is `hg_recv_input_cb`.  Allocation and
the NA post are modelled as succeeding; with the limit 1 the loop body
runs at most once.  No user callback is invoked. -/
def hg_listen (ctx : hg_context_t) (fresh : HgHandle) :
    hg_context_t × List UserCb :=
  if ctx.processing_list.length < 1 then
    ({ ctx with processing_list := ctx.processing_list ++ [fresh.self] }, [])
  else (ctx, [])

/-- `hg_progress` (`mercury_core.c:655-693`): drain the NA trigger
queue, then return success immediately if the completion queue is
non-empty, otherwise call the NA layer's progress.  `na_progress_ret`
is the (already mapped) result of that external call: `HG_TIMEOUT` for
`NA_TIMEOUT`, `HG_NA_ERROR` for other failures, `HG_SUCCESS` otherwise. -/
def hg_progress (func_map : Nat → Option hg_rpc_info) (ctx : hg_context_t)
    (pending : List na_completion) (na_progress_ret : hg_return_t) :
    hg_return_t × hg_context_t × List UserCb :=
  let d := na_trigger_drain func_map ctx pending
  if d.1.completion_queue.isEmpty = false then
    (hg_return_t.HG_SUCCESS, d.1, d.2)
  else
    (na_progress_ret, d.1, d.2)

/-- `HG_Progress` (`mercury_core.c:1414-1440`): run the listen pump if
the NA class is listening, then `hg_progress`. -/
def HG_Progress (func_map : Nat → Option hg_rpc_info) (listening : Bool)
    (ctx : hg_context_t) (fresh : HgHandle) (pending : List na_completion)
    (na_progress_ret : hg_return_t) :
    hg_return_t × hg_context_t × List UserCb :=
  let l := if listening then hg_listen ctx fresh else (ctx, [])
  let p := hg_progress func_map l.1 pending na_progress_ret
  (p.1, p.2.1, l.2 ++ p.2.2)

/-- The `while (count < max_count)` loop of `HG_Trigger`
(`mercury_core.c:1463-1522`), by remaining iterations: when the
completion queue is empty the condition wait is entered; in an
execution with no concurrent producers the timed wait expires, which is
the `HG_TIMEOUT` exit (`mercury_core.c:1474-1484`).  Otherwise the tail
handle is popped, its completion callback (if any) is invoked with its
`hg_cb_info`, the handle is destroyed and the count incremented.  The
`hg_cb_info` allocation is modelled as succeeding.  Returns the status,
the remaining queue, the number of completions delivered, and the
callback events. -/
def hg_trigger_loop : Nat → List HgHandle →
    hg_return_t × List HgHandle × Nat × List UserCb
  | 0, q => (hg_return_t.HG_SUCCESS, q, 0, [])
  | n + 1, q =>
    match q.getLast? with
    | none => (hg_return_t.HG_TIMEOUT, q, 0, [])
    | some h =>
      let evs := match h.callback with
        | some cb => [UserCb.completion cb h.arg]
        | none => []
      let r := hg_trigger_loop n q.dropLast
      (r.1, r.2.1, r.2.2.1 + 1, evs ++ r.2.2.2)

/-- Result of `HG_Trigger`: status, updated context, the value of the
caller's `actual_count` variable after the call (an `Option Nat`; the
input models its previous contents), and the callback events. -/
structure TriggerResult where
  ret : hg_return_t
  context : hg_context_t
  actual_count : Option Nat
  events : List UserCb
deriving DecidableEq, Repr

/-- `HG_Trigger` (`mercury_core.c:1443-1528`): run the loop; the store
`*actual_count = count` at `mercury_core.c:1524` is reached only when
the loop exits normally (every error path jumps to `done` past it), so
the caller's variable is updated only on `HG_SUCCESS`. -/
def HG_Trigger (max_count : Nat) (ctx : hg_context_t)
    (actual_count : Option Nat) : TriggerResult :=
  let r := hg_trigger_loop max_count ctx.completion_queue
  if r.1 = hg_return_t.HG_SUCCESS then
    ⟨r.1, { ctx with completion_queue := r.2.1 }, some r.2.2.1, r.2.2.2⟩
  else
    ⟨r.1, { ctx with completion_queue := r.2.1 }, actual_count, r.2.2.2⟩

/-- `HG_Context_destroy` (`mercury_core.c:936-976`): destroy the bulk
context (external; modelled from the spec as succeeding, including on
NULL), then fail with `HG_PROTOCOL_ERROR` if the completion queue is
non-empty, otherwise free everything and return success. -/
def HG_Context_destroy (ctx : hg_context_t) : hg_return_t :=
  if ctx.completion_queue.isEmpty then hg_return_t.HG_SUCCESS
  else hg_return_t.HG_PROTOCOL_ERROR

/-- The allocation state of one handle, for the reference-count
discipline: its reference count and whether `hg_destroy` has freed the
handle (together with its owned address and both buffers). -/
structure HandleMem where
  ref_count : Int
  freed : Bool
deriving DecidableEq, Repr

/-- `hg_destroy` (`mercury_core.c:353-384`): decrement the atomic
reference count; if the decremented value is non-zero the handle cannot
be freed yet, otherwise the owned address (if any), both proc buffers
and the handle itself are freed. -/
def hg_destroy (m : HandleMem) : HandleMem :=
  if m.ref_count - 1 = 0 then { ref_count := 0, freed := true }
  else { m with ref_count := m.ref_count - 1 }

/-- `n` successive calls to `hg_destroy` on one handle. -/
def destroyN : Nat → HandleMem → HandleMem
  | 0, m => m
  | n + 1, m => destroyN n (hg_destroy m)

/-- What the pointer returned by `hg_create` designates: NULL, a live
initialized handle, or a non-NULL pointer to a handle on which
`hg_destroy` was already invoked before returning (dangling). -/
inductive hg_ptr where
  | null
  | live (h : HgHandle)
  | dangling
deriving DecidableEq, Repr

/-- `hg_create` (`mercury_core.c:298-350`): allocation outcomes are the
oracle inputs `malloc_ok` (the handle struct), `in_buf_ok` and
`out_buf_ok` (the two proc buffers); `sz` is
`NA_Msg_get_max_expected_size` and `self` the identity of the malloc'd
handle.  If the struct malloc fails, `ret` stays `HG_SUCCESS` and NULL
is returned.  If a buffer allocation fails, `ret = HG_NOMEM_ERROR`, the
`done` label calls `hg_destroy(hg_handle)` — which, the reference count
not yet being initialized (that happens only at `mercury_core.c:343`),
decrements an uninitialized atomic and may free the handle — and the
function still executes `return hg_handle`, handing back the same
non-NULL pointer: a dangling handle. -/
def hg_create (malloc_ok in_buf_ok out_buf_ok : Bool) (sz self : Nat) : hg_ptr :=
  if malloc_ok = false then hg_ptr.null
  else if in_buf_ok = false then hg_ptr.dangling
  else if out_buf_ok = false then hg_ptr.dangling
  else hg_ptr.live (hg_handle_init sz self)

/-- `HG_Create` (`mercury_core.c:1113-1168`): after validating the
arguments (class/context validation is elided; `addr = 0` models
`NA_ADDR_NULL`), call `hg_create`; only a NULL result is treated as
failure (`HG_NOMEM_ERROR`, nothing stored).  Otherwise the address and
id are stored, the reference count is incremented so that a user
`HG_Destroy` only schedules the free, and the pointer is written to
`*handle`.  The second component models what is written to the caller's
handle variable (`none` = not written). -/
def HG_Create (malloc_ok in_buf_ok out_buf_ok : Bool) (sz self : Nat)
    (addr id : Nat) : hg_return_t × Option hg_ptr :=
  if addr = 0 then (hg_return_t.HG_INVALID_PARAM, none)
  else
    match hg_create malloc_ok in_buf_ok out_buf_ok sz self with
    | hg_ptr.null => (hg_return_t.HG_NOMEM_ERROR, none)
    | hg_ptr.live h =>
      (hg_return_t.HG_SUCCESS,
       some (hg_ptr.live { h with addr := addr, id := id,
                                  ref_count := h.ref_count + 1 }))
    | hg_ptr.dangling => (hg_return_t.HG_SUCCESS, some hg_ptr.dangling)

/-- Result of `HG_Forward_buf`: status, updated handle, updated class
(tag counter), the NA operations posted in order, and the
user-callback events (non-empty only on the self path, where
`hg_process` runs the RPC callback inside the call). -/
structure ForwardResult where
  ret : hg_return_t
  handle : HgHandle
  hg_class : hg_class_t
  na_ops : List NaOp
  events : List UserCb
deriving Repr

/-- `HG_Forward_buf` (`mercury_core.c:1286-1351`): store the callback
and argument on the handle, encode the request header (id, zero cookie)
into `in_buf`, then: if `NA_Addr_is_self` holds for the destination
(the predicate `is_self` is the external transport's), process the
handle directly; otherwise generate a tag, pre-post the expected
receive for the response (callback `hg_recv_output_cb`), and then post
the unexpected send of the request (callback `hg_send_input_cb`).  The
oracles `recv_post_ok`/`send_post_ok` are the NA layer's results for
the two posts; a failed first post (`HG_NA_ERROR`) skips the second. -/
def HG_Forward_buf (func_map : Nat → Option hg_rpc_info)
    (is_self : Nat → Bool) (c : hg_class_t) (h : HgHandle)
    (callback arg : Nat) (recv_post_ok send_post_ok : Bool) : ForwardResult :=
  let h1 := { h with callback := some callback, arg := arg }
  let h2 := { h1 with in_buf := BufContent.req (hg_proc_header_request_init h1.id) }
  if is_self h2.addr then
    let pr := hg_process func_map h2
    ⟨pr.1, pr.2.1, c, [], pr.2.2⟩
  else
    let tc := hg_gen_request_tag c
    let h3 := { h2 with tag := tc.1 }
    if recv_post_ok = false then
      ⟨hg_return_t.HG_NA_ERROR, h3, tc.2, [NaOp.msg_recv_expected tc.1], []⟩
    else if send_post_ok = false then
      ⟨hg_return_t.HG_NA_ERROR, h3, tc.2,
       [NaOp.msg_recv_expected tc.1, NaOp.msg_send_unexpected tc.1], []⟩
    else
      ⟨hg_return_t.HG_SUCCESS, h3, tc.2,
       [NaOp.msg_recv_expected tc.1, NaOp.msg_send_unexpected tc.1], []⟩

/-- Result of `HG_Respond_buf`: status, updated handle, updated context
(the self path enqueues on the completion queue), and the NA operations
posted. -/
structure RespondResult where
  ret : hg_return_t
  handle : HgHandle
  context : hg_context_t
  na_ops : List NaOp
deriving Repr

/-- `HG_Respond_buf` (`mercury_core.c:1354-1411`): store the callback
and argument on the handle (overwriting whatever callback was there),
fill a response header whose cookie echoes the handle's recorded
cookie, encode it into `out_buf`, then: on the self path call
`hg_complete` directly; otherwise post the expected send of the
response on the recorded tag (callback `hg_send_output_cb`), with
oracle `send_post_ok` for the NA result. -/
def HG_Respond_buf (is_self : Nat → Bool) (ctx : hg_context_t)
    (h : HgHandle) (callback arg : Nat) (send_post_ok : Bool) : RespondResult :=
  let h1 := { h with callback := some callback, arg := arg }
  let h2 := { h1 with
    out_buf := BufContent.resp
      { hg_proc_header_response_init with cookie := h1.cookie } }
  if is_self h2.addr then
    ⟨hg_return_t.HG_SUCCESS, h2, (hg_complete ctx h2).2, []⟩
  else if send_post_ok then
    ⟨hg_return_t.HG_SUCCESS, h2, ctx, [NaOp.msg_send_expected h2.tag]⟩
  else
    ⟨hg_return_t.HG_NA_ERROR, h2, ctx, [NaOp.msg_send_expected h2.tag]⟩

/-- One complete exchange on the self-dispatch path, as driven by a
user: `HG_Forward_buf` on a handle whose destination satisfies the
transport's self predicate (so `hg_process` runs inside the call and
invokes the registered RPC callback), then the user RPC callback calls
`HG_Respond_buf` on the same handle (self again, so the handle is
enqueued directly on the completion queue), then one `HG_Trigger`
delivers from the queue.  Returns the user-visible callback sequence. -/
def selfExchange (func_map : Nat → Option hg_rpc_info) (h0 : HgHandle)
    (fwdCb fwdArg respCb respArg : Nat) : List UserCb :=
  let fr := HG_Forward_buf func_map (fun _ => true) ⟨0, 3⟩ h0 fwdCb fwdArg true true
  let rr := HG_Respond_buf (fun _ => true) ⟨[], []⟩ fr.handle respCb respArg true
  let tr := HG_Trigger 1 rr.context none
  fr.events ++ tr.events

/-- The same exchange on the network path, with distinct origin and
target handles: `HG_Forward_buf` to a non-self address posts the
receive and the send; the wire copies the request bytes into the listen
handle's input buffer; the target's `hg_recv_input_cb` completion
(run from `HG_Progress`) dispatches the RPC callback; the user RPC
callback calls `HG_Respond_buf` (non-self, posting the expected send);
the wire copies the response bytes into the origin's output buffer;
`hg_recv_output_cb` at the origin and `hg_send_output_cb` at the target
each enqueue their handle; one `HG_Trigger` on each side delivers.
Returns the user-visible callback sequence. -/
def networkExchange (func_map : Nat → Option hg_rpc_info)
    (hO hT : HgHandle) (srcAddr : Nat)
    (fwdCb fwdArg respCb respArg : Nat) : List UserCb :=
  let fr := HG_Forward_buf func_map (fun _ => false) ⟨0, 3⟩ hO fwdCb fwdArg true true
  let hT1 := { hT with in_buf := fr.handle.in_buf }
  let tres := na_cb_run func_map ⟨[], [hT1.self]⟩
    (na_completion.recv_input true hT1 srcAddr fr.handle.tag hT1.in_buf_size)
  match tres.dispatched with
  | none => fr.events ++ tres.events
  | some hT2 =>
    let rr := HG_Respond_buf (fun _ => false) tres.context hT2 respCb respArg true
    let hO1 := { fr.handle with out_buf := rr.handle.out_buf }
    let ores := na_cb_run func_map ⟨[], []⟩ (na_completion.recv_output true hO1)
    let tres2 := na_cb_run func_map rr.context (na_completion.send_output true rr.handle)
    let trO := HG_Trigger 1 ores.context none
    let trT := HG_Trigger 1 tres2.context none
    fr.events ++ tres.events ++ trO.events ++ trT.events

/-- Example function map: one registration, id 7, RPC callback 42. -/
def exFm : Nat → Option hg_rpc_info :=
  fun i => if i = 7 then some ⟨some 42, 0, none⟩ else none

/-- Example origin handle, as produced by `HG_Create` (reference count
2): destination address 9, RPC id 7. -/
def exOrigin : HgHandle :=
  { hg_handle_init 64 1 with addr := 9, id := 7, ref_count := 2 }

/-- Example listen-pump handle on the target (fresh from `hg_create`,
reference count 1). -/
def exTarget : HgHandle :=
  hg_handle_init 64 2

/-- Example origin handle whose destination is the local process
(self-dispatch path), RPC id 7, reference count 2 from `HG_Create`. -/
def exSelfOrigin : HgHandle :=
  { hg_handle_init 64 3 with addr := 4, id := 7, ref_count := 2 }

/-- Example handle sitting on a completion queue with completion
callback 3 and argument 30. -/
def exCompleted : HgHandle :=
  { hg_handle_init 64 5 with callback := some 3, arg := 30 }

/-! ### Helper lemmas -/

lemma hg_gen_request_tag_eq (c : hg_class_t) :
    hg_gen_request_tag c =
      if c.request_tag = c.request_max_tag then
        (0, ⟨0, c.request_max_tag⟩)
      else
        ((c.request_tag + 1) % 2 ^ 32,
         ⟨(c.request_tag + 1) % 2 ^ 32, c.request_max_tag⟩) := rfl

lemma gen_tag_at_max (c : hg_class_t) (h : c.request_tag = c.request_max_tag) :
    hg_gen_request_tag c = (0, ⟨0, c.request_max_tag⟩) := by
  rw [hg_gen_request_tag_eq, if_pos h]

lemma gen_tag_below_max (c : hg_class_t) (h : c.request_tag ≠ c.request_max_tag)
    (hlt : c.request_tag + 1 < 2 ^ 32) :
    hg_gen_request_tag c =
      (c.request_tag + 1, ⟨c.request_tag + 1, c.request_max_tag⟩) := by
  rw [hg_gen_request_tag_eq, if_neg h, Nat.mod_eq_of_lt hlt]

lemma hg_trigger_loop_timeout (n : Nat) :
    ∀ q : List HgHandle, q.length < n →
      (hg_trigger_loop n q).1 = hg_return_t.HG_TIMEOUT ∧
      (hg_trigger_loop n q).2.1 = [] ∧
      (hg_trigger_loop n q).2.2.1 = q.length := by
  induction n with
  | zero => intro q h; omega
  | succ n ih =>
    intro q h
    rcases q.eq_nil_or_concat' with rfl | ⟨L, b, rfl⟩
    · simp [hg_trigger_loop]
    · have hlen : L.length < n := by
        simp only [List.length_append, List.length_cons, List.length_nil] at h
        omega
      obtain ⟨h1, h2, h3⟩ := ih L hlen
      simp [hg_trigger_loop, List.getLast?_concat, List.dropLast_concat,
        h1, h2, h3]

lemma hg_trigger_loop_drain :
    ∀ (n : Nat) (q : List HgHandle), q.length = n →
      (hg_trigger_loop n q).1 = hg_return_t.HG_SUCCESS ∧
      (hg_trigger_loop n q).2.1 = [] ∧
      (hg_trigger_loop n q).2.2.1 = n := by
  intro n
  induction n with
  | zero =>
    intro q h
    rw [List.length_eq_zero] at h
    subst h
    simp [hg_trigger_loop]
  | succ n ih =>
    intro q h
    rcases q.eq_nil_or_concat' with rfl | ⟨L, b, rfl⟩
    · simp at h
    · have hlen : L.length = n := by
        simp only [List.length_append, List.length_cons, List.length_nil] at h
        omega
      obtain ⟨h1, h2, h3⟩ := ih L hlen
      simp [hg_trigger_loop, List.getLast?_concat, List.dropLast_concat,
        h1, h2, h3]

lemma destroyN_spec :
    ∀ (k n : Nat), 0 < n → k ≤ n →
      destroyN k ⟨(n : Int), false⟩ =
        if k = n then ⟨0, true⟩ else ⟨(n : Int) - k, false⟩ := by
  intro k
  induction k with
  | zero =>
    intro n hn hk
    rw [if_neg (by omega)]
    simp [destroyN]
  | succ k ih =>
    intro n hn hk
    have estep : destroyN (k + 1) ⟨(n : Int), false⟩
        = destroyN k (hg_destroy ⟨(n : Int), false⟩) := rfl
    by_cases h1 : n = 1
    · subst h1
      have hk0 : k = 0 := by omega
      subst hk0
      simp [destroyN, hg_destroy]
    · have hd : hg_destroy ⟨(n : Int), false⟩ = ⟨((n - 1 : Nat) : Int), false⟩ := by
        have hne : (n : Int) - 1 ≠ 0 := by omega
        have hcast : (n : Int) - 1 = ((n - 1 : Nat) : Int) := by omega
        simp [hg_destroy, hne, hcast]
        omega
      rw [estep, hd, ih (n - 1) (by omega) (by omega)]
      by_cases hkn : k = n - 1
      · rw [if_pos hkn, if_pos (by omega)]
      · rw [if_neg hkn, if_neg (by omega)]
        have h2 : ((n - 1 : Nat) : Int) - (k : Int)
            = (n : Int) - ((k + 1 : Nat) : Int) := by
          push_cast
          omega
        rw [h2]

lemma hg_process_no_completion (func_map : Nat → Option hg_rpc_info)
    (h : HgHandle) (cb arg : Nat) :
    UserCb.completion cb arg ∉ (hg_process func_map h).2.2 := by
  cases hd : hg_proc_header_request_decode h.in_buf with
  | none => simp [hg_process, hd]
  | some hdr =>
    cases hfm : func_map hdr.id with
    | none => simp [hg_process, hd, hfm]
    | some info =>
      cases hcb : info.rpc_cb with
      | none => simp [hg_process, hd, hfm, hcb]
      | some c => simp [hg_process, hd, hfm, hcb]

lemma na_cb_run_no_completion (func_map : Nat → Option hg_rpc_info)
    (ctx : hg_context_t) (c : na_completion) (cb arg : Nat) :
    UserCb.completion cb arg ∉ (na_cb_run func_map ctx c).events := by
  cases c with
  | send_input r h => simp [na_cb_run]
  | recv_input r h s t sz =>
    simp only [na_cb_run]
    split
    · simp
    · split
      · simp
      · split
        · exact hg_process_no_completion func_map _ cb arg
        · simp
  | send_output r h => cases r <;> simp [na_cb_run]
  | recv_output r h =>
    simp only [na_cb_run]
    split
    · simp
    · cases hd : hg_proc_header_response_decode h.out_buf <;> simp [hd]

lemma na_trigger_drain_no_completion (func_map : Nat → Option hg_rpc_info) :
    ∀ (pending : List na_completion) (ctx : hg_context_t) (cb arg : Nat),
      UserCb.completion cb arg ∉ (na_trigger_drain func_map ctx pending).2 := by
  intro pending
  induction pending with
  | nil => intro ctx cb arg; simp [na_trigger_drain]
  | cons c cs ih =>
    intro ctx cb arg
    simp only [na_trigger_drain, List.mem_append, not_or]
    exact ⟨na_cb_run_no_completion func_map ctx c cb arg, ih _ cb arg⟩

lemma hg_listen_no_events (ctx : hg_context_t) (fresh : HgHandle) :
    (hg_listen ctx fresh).2 = [] := by
  unfold hg_listen
  split <;> rfl

lemma hg_progress_events (func_map : Nat → Option hg_rpc_info)
    (ctx : hg_context_t) (pending : List na_completion)
    (na_ret : hg_return_t) :
    (hg_progress func_map ctx pending na_ret).2.2
      = (na_trigger_drain func_map ctx pending).2 := by
  simp only [hg_progress]
  split <;> rfl

/-- Example listen-pump handle whose input buffer holds a received
request for id 7 with cookie 0 (what the wire wrote before the
unexpected-receive completion fired). -/
def exReqTarget : HgHandle :=
  { hg_handle_init 64 2 with in_buf := BufContent.req ⟨7, 0⟩ }

/-! ### Claims -/

/-- Claim C1, counterexample: a single `HG_Progress` call on a
listening target with one pending unexpected-receive completion (a
valid request for registered id 7) invokes the registered RPC callback
42 during the call — so a user-supplied callback is invoked from within
`Progress`, contradicting the claim. -/
theorem C1_counterexample :
    (HG_Progress exFm true ⟨[], [2]⟩ (hg_handle_init 64 6)
        [na_completion.recv_input true exReqTarget 9 5 64]
        hg_return_t.HG_SUCCESS).2.2 = [UserCb.rpc 42]
  ∧ (HG_Progress exFm true ⟨[], [2]⟩ (hg_handle_init 64 6)
        [na_completion.recv_input true exReqTarget 9 5 64]
        hg_return_t.HG_SUCCESS).2.2 ≠ [] := by decide

/-- Claim C1 (amended): for every call to `HG_Progress` — any function
map, listening mode, context state, fresh listen handle, pending NA
completions and NA progress result — no handle completion callback is
invoked during the call (completion callbacks run only from
`HG_Trigger`); the callbacks `Progress` may invoke are registered RPC
callbacks, on the target, when a request arrives. -/
theorem C1_progress_invokes_no_completion_callback
    (func_map : Nat → Option hg_rpc_info) (listening : Bool)
    (ctx : hg_context_t) (fresh : HgHandle) (pending : List na_completion)
    (na_ret : hg_return_t) (cb arg : Nat) :
    UserCb.completion cb arg
      ∉ (HG_Progress func_map listening ctx fresh pending na_ret).2.2 := by
  have hl : (if listening then hg_listen ctx fresh else (ctx, [])).2 = [] := by
    cases listening
    · rfl
    · simpa using hg_listen_no_events ctx fresh
  simp only [HG_Progress]
  rw [hl]
  simp only [List.nil_append, hg_progress_events]
  exact na_trigger_drain_no_completion func_map pending _ cb arg

/-- Claim C2, counterexample: `HG_Trigger` with `max_count = 2` on a
queue holding one completed handle delivers that one completion
(k = 1), then the wait times out; it returns `HG_TIMEOUT` but the
caller's `actual_count` variable is left untouched (`none`, modelling
a never-written variable), not set to 1: the store at
`mercury_core.c:1524` is skipped by the `goto done` of the timeout
path. -/
theorem C2_counterexample :
    (HG_Trigger 2 ⟨[exCompleted], []⟩ none).ret = hg_return_t.HG_TIMEOUT
  ∧ (HG_Trigger 2 ⟨[exCompleted], []⟩ none).events = [UserCb.completion 3 30]
  ∧ (HG_Trigger 2 ⟨[exCompleted], []⟩ none).actual_count ≠ some 1 := by decide

/-- Claim C2 (amended): for every `HG_Trigger` call in which the
condition wait times out after the k pending completions have been
delivered, the call returns `HG_TIMEOUT`, the queue is drained, and
`actual_count` is left unchanged — the count is stored only when the
loop delivers `max_count` completions. -/
theorem C2_trigger_timeout_keeps_actual_count (ctx : hg_context_t)
    (max_count : Nat) (ac : Option Nat)
    (h : ctx.completion_queue.length < max_count) :
    (HG_Trigger max_count ctx ac).ret = hg_return_t.HG_TIMEOUT
  ∧ (HG_Trigger max_count ctx ac).actual_count = ac
  ∧ (HG_Trigger max_count ctx ac).context.completion_queue = [] := by
  obtain ⟨h1, h2, h3⟩ := hg_trigger_loop_timeout max_count ctx.completion_queue h
  simp [HG_Trigger, h1, h2]

/-- Witness for claim C2's amended theorem at a queue of length 1 and
`max_count = 2`, with the caller's variable previously holding 5. -/
theorem C2_trigger_timeout_keeps_actual_count_witness :
    ((⟨[exCompleted], []⟩ : hg_context_t).completion_queue.length < 2)
  ∧ ((HG_Trigger 2 ⟨[exCompleted], []⟩ (some 5)).ret = hg_return_t.HG_TIMEOUT
      ∧ (HG_Trigger 2 ⟨[exCompleted], []⟩ (some 5)).actual_count = some 5
      ∧ (HG_Trigger 2 ⟨[exCompleted], []⟩ (some 5)).context.completion_queue = []) :=
  ⟨by decide, C2_trigger_timeout_keeps_actual_count ⟨[exCompleted], []⟩ 2 (some 5) (by decide)⟩

/-- Claim C3, counterexample: for a Class whose `request_max_tag` is 0,
the counter (0) always equals the maximum, so the compare-and-swap path
is taken on every call and two successive calls both return 0 — they
are not distinct, contradicting the claim as stated. -/
theorem C3_counterexample :
    (hg_gen_request_tag ⟨0, 0⟩).1 = 0
  ∧ (hg_gen_request_tag (hg_gen_request_tag ⟨0, 0⟩).2).1 = 0 := by decide

/-- Claim C3 (amended): for every Class whose counter is within
`[0, request_max_tag]` and whose `request_max_tag` is at least 1 (and
below `2 ^ 32`, the width of the counter), the generator returns a tag
in `[0, request_max_tag]`, the next call returns a distinct tag, a
counter that has reached `request_max_tag` makes the call return 0, and
for `request_max_tag = 3` five successive allocations yield
1, 2, 3, 0, 1. -/
theorem C3_tag_generator (c : hg_class_t)
    (hinv : c.request_tag ≤ c.request_max_tag)
    (hmax : c.request_max_tag < 2 ^ 32)
    (hpos : 1 ≤ c.request_max_tag) :
    (hg_gen_request_tag c).1 ≤ c.request_max_tag
  ∧ (hg_gen_request_tag (hg_gen_request_tag c).2).1 ≠ (hg_gen_request_tag c).1
  ∧ (c.request_tag = c.request_max_tag → (hg_gen_request_tag c).1 = 0)
  ∧ tagSeq ⟨0, 3⟩ 5 = [1, 2, 3, 0, 1] := by
  rcases eq_or_ne c.request_tag c.request_max_tag with h | h
  · have e1 := gen_tag_at_max c h
    have e2 := gen_tag_below_max ⟨0, c.request_max_tag⟩
      (show (0 : Nat) ≠ c.request_max_tag by omega) (by norm_num)
    simp only [e1]
    refine ⟨Nat.zero_le _, ?_, fun _ => trivial, by decide⟩
    rw [e2]
    dsimp only
    omega
  · have e1 := gen_tag_below_max c h (by omega)
    simp only [e1]
    refine ⟨by omega, ?_, fun h2 => absurd h2 h, by decide⟩
    rcases eq_or_ne (c.request_tag + 1) c.request_max_tag with h2 | h2
    · have e2 := gen_tag_at_max ⟨c.request_tag + 1, c.request_max_tag⟩ h2
      rw [e2]
      dsimp only
      omega
    · have e2 := gen_tag_below_max ⟨c.request_tag + 1, c.request_max_tag⟩ h2
        (show c.request_tag + 1 + 1 < 2 ^ 32 by omega)
      rw [e2]
      dsimp only
      omega

/-- Witness for claim C3's amended theorem at the Class with counter 0
and `request_max_tag = 3`. -/
theorem C3_tag_generator_witness :
    ((⟨0, 3⟩ : hg_class_t).request_tag ≤ (⟨0, 3⟩ : hg_class_t).request_max_tag
      ∧ (⟨0, 3⟩ : hg_class_t).request_max_tag < 2 ^ 32
      ∧ 1 ≤ (⟨0, 3⟩ : hg_class_t).request_max_tag)
  ∧ ((hg_gen_request_tag ⟨0, 3⟩).1 ≤ (⟨0, 3⟩ : hg_class_t).request_max_tag
      ∧ (hg_gen_request_tag (hg_gen_request_tag ⟨0, 3⟩).2).1
          ≠ (hg_gen_request_tag ⟨0, 3⟩).1
      ∧ ((⟨0, 3⟩ : hg_class_t).request_tag = (⟨0, 3⟩ : hg_class_t).request_max_tag
          → (hg_gen_request_tag ⟨0, 3⟩).1 = 0)
      ∧ tagSeq ⟨0, 3⟩ 5 = [1, 2, 3, 0, 1]) :=
  ⟨⟨by decide, by decide, by decide⟩,
   C3_tag_generator ⟨0, 3⟩ (by decide) (by decide) (by decide)⟩

/-- Claim C4: at a concrete exchange (registered id 7, RPC callback 42,
forward callback 1 with argument 10, respond callback 2 with argument
20), the network path delivers the RPC callback, the origin's forward
completion callback and the target's respond completion callback,
while the self-dispatch path — which does invoke the processor directly
from `forward` and does enqueue directly from `respond` — delivers only
the RPC callback and the respond callback: `HG_Respond_buf` overwrites
the single shared handle's `callback` field, so the forward completion
callback passed to `HG_Forward_buf` is never invoked, and the two
user-visible callback sequences differ. -/
theorem C4_self_path_drops_forward_callback :
    networkExchange exFm exOrigin exTarget 5 1 10 2 20
      = [UserCb.rpc 42, UserCb.completion 1 10, UserCb.completion 2 20]
  ∧ selfExchange exFm exSelfOrigin 1 10 2 20
      = [UserCb.rpc 42, UserCb.completion 2 20]
  ∧ UserCb.completion 1 10 ∉ selfExchange exFm exSelfOrigin 1 10 2 20
  ∧ selfExchange exFm exSelfOrigin 1 10 2 20
      ≠ networkExchange exFm exOrigin exTarget 5 1 10 2 20 := by decide

/-- Claim C5: for every context whose completion queue is non-empty,
`HG_Context_destroy` returns `HG_PROTOCOL_ERROR`; after the queue is
drained by one `HG_Trigger` (with `max_count` equal to the number of
pending completions, which succeeds), `HG_Context_destroy` on the
resulting context returns `HG_SUCCESS`. -/
theorem C5_context_destroy_protocol_error (ctx : hg_context_t)
    (h : ctx.completion_queue ≠ []) :
    HG_Context_destroy ctx = hg_return_t.HG_PROTOCOL_ERROR
  ∧ (HG_Trigger ctx.completion_queue.length ctx none).ret = hg_return_t.HG_SUCCESS
  ∧ HG_Context_destroy (HG_Trigger ctx.completion_queue.length ctx none).context
      = hg_return_t.HG_SUCCESS := by
  obtain ⟨h1, h2, h3⟩ :=
    hg_trigger_loop_drain ctx.completion_queue.length ctx.completion_queue rfl
  have hne : ctx.completion_queue.isEmpty = false := by
    cases hq : ctx.completion_queue with
    | nil => exact absurd hq h
    | cons a l => rfl
  refine ⟨by simp [HG_Context_destroy, hne], ?_, ?_⟩
  · simp [HG_Trigger, h1]
  · simp [HG_Trigger, h1, h2, HG_Context_destroy]

/-- Witness for claim C5 at a context with one pending completed
handle. -/
theorem C5_context_destroy_protocol_error_witness :
    ((⟨[exCompleted], []⟩ : hg_context_t).completion_queue ≠ [])
  ∧ (HG_Context_destroy ⟨[exCompleted], []⟩ = hg_return_t.HG_PROTOCOL_ERROR
      ∧ (HG_Trigger (⟨[exCompleted], []⟩ : hg_context_t).completion_queue.length
            ⟨[exCompleted], []⟩ none).ret = hg_return_t.HG_SUCCESS
      ∧ HG_Context_destroy
          (HG_Trigger (⟨[exCompleted], []⟩ : hg_context_t).completion_queue.length
            ⟨[exCompleted], []⟩ none).context = hg_return_t.HG_SUCCESS) :=
  ⟨by decide, C5_context_destroy_protocol_error ⟨[exCompleted], []⟩ (by decide)⟩

/-- Claim C6, counterexample: with a hash under which the distinct
names "a" and "b" collide on id 5, registering "b" after "a" returns 5
(not the failure value 0) and the registry entry for id 5 now holds
"b"'s callback 99 — the first registration was silently overwritten. -/
theorem C6_counterexample :
    ("a" : String) ≠ "b"
  ∧ (HG_Register_rpc (fun _ => 5)
        (HG_Register_rpc (fun _ => 5) (fun _ => none) "a" (some 42)).2
        "b" (some 99)).1 ≠ 0
  ∧ (HG_Register_rpc (fun _ => 5)
        (HG_Register_rpc (fun _ => 5) (fun _ => none) "a" (some 42)).2
        "b" (some 99)).2 5 = some ⟨some 99, 0, none⟩ := by
  refine ⟨by decide, by decide, rfl⟩

/-- Claim C6 (amended): for every pair of distinct RPC names whose
hashes collide, registering the second name silently overwrites the
first registration's entry (last-writer-wins of the hash-table insert)
and `HG_Register_rpc` returns the colliding id itself, not the failure
value 0 (the return value is 0 only when the hash of the name is 0). -/
theorem C6_register_rpc_overwrites (hash : String → Nat)
    (func_map : Nat → Option hg_rpc_info) (a b : String)
    (cbA cbB : Option Nat) (_hab : a ≠ b) (hcol : hash a = hash b) :
    (HG_Register_rpc hash (HG_Register_rpc hash func_map a cbA).2 b cbB).1
      = hash b
  ∧ (HG_Register_rpc hash (HG_Register_rpc hash func_map a cbA).2 b cbB).2
      (hash a) = some ⟨cbB, 0, none⟩ := by
  refine ⟨rfl, ?_⟩
  simp [HG_Register_rpc, hg_hash_table_insert, hcol]

/-- Witness for claim C6's amended theorem with the constant hash 5 on
the distinct names "a" and "b". -/
theorem C6_register_rpc_overwrites_witness :
    (("a" : String) ≠ "b" ∧ (5 : Nat) = 5)
  ∧ ((HG_Register_rpc (fun _ => 5)
        (HG_Register_rpc (fun _ => 5) (fun _ => none) "a" (some 42)).2
        "b" (some 99)).1 = 5
      ∧ (HG_Register_rpc (fun _ => 5)
          (HG_Register_rpc (fun _ => 5) (fun _ => none) "a" (some 42)).2
          "b" (some 99)).2 5 = some ⟨some 99, 0, none⟩) :=
  ⟨⟨by decide, rfl⟩,
   C6_register_rpc_overwrites (fun _ => 5) (fun _ => none) "a" "b"
     (some 42) (some 99) (by decide) rfl⟩

/-- Claim C7: for every completed exchange — any function map, target
handle, inbound request header, respond callback and NA send result —
if the target's `hg_process` dispatched successfully, then the cookie
it stored on the handle equals the request header's cookie, and the
response header that `HG_Respond_buf` encodes into the output buffer
(the bytes the wire copies to the origin, which the origin's
`hg_recv_output_cb` decodes) carries exactly that cookie. -/
theorem C7_cookie_round_trip (func_map : Nat → Option hg_rpc_info)
    (hT hO : HgHandle) (hdr : ReqHeader) (respCb respArg : Nat)
    (send_post_ok : Bool)
    (hsucc : (hg_process func_map { hT with in_buf := BufContent.req hdr }).1
      = hg_return_t.HG_SUCCESS) :
    (hg_process func_map { hT with in_buf := BufContent.req hdr }).2.1.cookie
      = hdr.cookie
  ∧ hg_proc_header_response_decode
      ({ hO with out_buf := (HG_Respond_buf (fun _ => false) ⟨[], []⟩
            (hg_process func_map { hT with in_buf := BufContent.req hdr }).2.1
            respCb respArg send_post_ok).handle.out_buf }).out_buf
      = some ⟨hdr.cookie⟩ := by
  cases hfm : func_map hdr.id with
  | none =>
    exfalso
    rw [hg_process] at hsucc
    simp [hg_proc_header_request_decode, hfm] at hsucc
  | some info =>
    cases hcb : info.rpc_cb with
    | none =>
      exfalso
      rw [hg_process] at hsucc
      simp [hg_proc_header_request_decode, hfm, hcb] at hsucc
    | some cb =>
      constructor
      · simp [hg_process, hg_proc_header_request_decode, hfm, hcb]
      · cases send_post_ok <;>
          simp [hg_process, hg_proc_header_request_decode, hfm, hcb,
            HG_Respond_buf, hg_proc_header_response_decode,
            hg_proc_header_response_init]

/-- Witness for claim C7 at the example registration (id 7, callback
42) with request cookie 5. -/
theorem C7_cookie_round_trip_witness :
    ((hg_process exFm { exTarget with in_buf := BufContent.req ⟨7, 5⟩ }).1
        = hg_return_t.HG_SUCCESS)
  ∧ ((hg_process exFm { exTarget with in_buf := BufContent.req ⟨7, 5⟩ }).2.1.cookie
        = (⟨7, 5⟩ : ReqHeader).cookie
      ∧ hg_proc_header_response_decode
          ({ exOrigin with out_buf := (HG_Respond_buf (fun _ => false) ⟨[], []⟩
                (hg_process exFm { exTarget with in_buf := BufContent.req ⟨7, 5⟩ }).2.1
                2 20 true).handle.out_buf }).out_buf
          = some ⟨(⟨7, 5⟩ : ReqHeader).cookie⟩) :=
  ⟨by decide, C7_cookie_round_trip exFm exTarget exOrigin ⟨7, 5⟩ 2 20 true (by decide)⟩

/-- Claim C8: the reference-count discipline.  For every handle whose
reference count is n > 0 and which receives k ≤ n `hg_destroy` calls:
the count never goes negative, while k < n the handle is live (count
= n − k ≥ 1, nothing freed), and the handle with its owned address and
both buffers is freed exactly at the k = n transition to 0 — one free
per lifetime.  Moreover the internal constructor creates handles with
count 1, `HG_Create` hands the user a handle with count 2 (its create
balanced by the user's destroy plus the trigger's destroy), and the
listen-path dispatch (`hg_process`) raises a fresh target handle's
count to 2 (balanced by the RPC callback's destroy plus the trigger's
destroy). -/
theorem C8_refcount_discipline (n k : Nat) (hn : 0 < n) (hk : k ≤ n) :
    0 ≤ (destroyN k ⟨(n : Int), false⟩).ref_count
  ∧ (k < n →
      (destroyN k ⟨(n : Int), false⟩).ref_count = (n : Int) - k
      ∧ 1 ≤ (destroyN k ⟨(n : Int), false⟩).ref_count
      ∧ (destroyN k ⟨(n : Int), false⟩).freed = false)
  ∧ ((destroyN k ⟨(n : Int), false⟩).freed = true ↔ k = n)
  ∧ hg_create true true true 64 1 = hg_ptr.live (hg_handle_init 64 1)
  ∧ (hg_handle_init 64 1).ref_count = 1
  ∧ (HG_Create true true true 64 1 9 7).2
      = some (hg_ptr.live { hg_handle_init 64 1 with addr := 9, id := 7, ref_count := 2 })
  ∧ (hg_process exFm { hg_handle_init 64 2 with
        in_buf := BufContent.req ⟨7, 0⟩ }).2.1.ref_count = 2 := by
  have e := destroyN_spec k n hn hk
  by_cases hkn : k = n
  · rw [e, if_pos hkn]
    exact ⟨le_rfl, fun hlt => absurd hlt (by omega), by simp [hkn],
      by decide, by decide, by decide, by decide⟩
  · rw [e, if_neg hkn]
    refine ⟨?_, fun hlt => ⟨rfl, ?_, rfl⟩, ?_, by decide, by decide, by decide, by decide⟩
    · show (0 : Int) ≤ (n : Int) - k
      omega
    · show (1 : Int) ≤ (n : Int) - k
      omega
    · show (false = true) ↔ k = n
      simp [hkn]

/-- Witness for claim C8 at a handle created by `HG_Create`
(reference count 2) after its first destroy. -/
theorem C8_refcount_discipline_witness :
    ((0 < 2) ∧ (1 ≤ 2))
  ∧ (0 ≤ (destroyN 1 ⟨((2 : Nat) : Int), false⟩).ref_count
      ∧ (1 < 2 →
          (destroyN 1 ⟨((2 : Nat) : Int), false⟩).ref_count = ((2 : Nat) : Int) - (1 : Nat)
          ∧ 1 ≤ (destroyN 1 ⟨((2 : Nat) : Int), false⟩).ref_count
          ∧ (destroyN 1 ⟨((2 : Nat) : Int), false⟩).freed = false)
      ∧ ((destroyN 1 ⟨((2 : Nat) : Int), false⟩).freed = true ↔ 1 = 2)
      ∧ hg_create true true true 64 1 = hg_ptr.live (hg_handle_init 64 1)
      ∧ (hg_handle_init 64 1).ref_count = 1
      ∧ (HG_Create true true true 64 1 9 7).2
          = some (hg_ptr.live { hg_handle_init 64 1 with addr := 9, id := 7, ref_count := 2 })
      ∧ (hg_process exFm { hg_handle_init 64 2 with
            in_buf := BufContent.req ⟨7, 0⟩ }).2.1.ref_count = 2) :=
  ⟨⟨by decide, by decide⟩, C8_refcount_discipline 2 1 (by decide) (by decide)⟩

/-- Claim C9: for every `HG_Forward_buf` call on a handle whose
destination address is not self — any function map, class state,
callback and NA post results — the first NA operation posted is the
expected receive for the response (on the freshly generated tag), and
whenever the unexpected send of the request is posted at all, the
posted sequence is exactly the expected receive followed by the
unexpected send. -/
theorem C9_recv_posted_before_send (func_map : Nat → Option hg_rpc_info)
    (is_self : Nat → Bool) (c : hg_class_t) (h : HgHandle)
    (cb arg : Nat) (rok sok : Bool) (hns : is_self h.addr = false) :
    (HG_Forward_buf func_map is_self c h cb arg rok sok).na_ops.head?
      = some (NaOp.msg_recv_expected (hg_gen_request_tag c).1)
  ∧ (NaOp.msg_send_unexpected (hg_gen_request_tag c).1
        ∈ (HG_Forward_buf func_map is_self c h cb arg rok sok).na_ops
      → (HG_Forward_buf func_map is_self c h cb arg rok sok).na_ops
        = [NaOp.msg_recv_expected (hg_gen_request_tag c).1,
           NaOp.msg_send_unexpected (hg_gen_request_tag c).1]) := by
  cases rok
  · simp [HG_Forward_buf, hns]
  · cases sok <;> simp [HG_Forward_buf, hns]

/-- Witness for claim C9 at a concrete non-self forward. -/
theorem C9_recv_posted_before_send_witness :
    ((fun _ : Nat => false) exOrigin.addr = false)
  ∧ ((HG_Forward_buf exFm (fun _ => false) ⟨0, 3⟩ exOrigin 1 10 true true).na_ops.head?
        = some (NaOp.msg_recv_expected (hg_gen_request_tag ⟨0, 3⟩).1)
      ∧ (NaOp.msg_send_unexpected (hg_gen_request_tag ⟨0, 3⟩).1
            ∈ (HG_Forward_buf exFm (fun _ => false) ⟨0, 3⟩ exOrigin 1 10 true true).na_ops
          → (HG_Forward_buf exFm (fun _ => false) ⟨0, 3⟩ exOrigin 1 10 true true).na_ops
            = [NaOp.msg_recv_expected (hg_gen_request_tag ⟨0, 3⟩).1,
               NaOp.msg_send_unexpected (hg_gen_request_tag ⟨0, 3⟩).1])) :=
  ⟨rfl, C9_recv_posted_before_send exFm (fun _ => false) ⟨0, 3⟩ exOrigin 1 10 true true rfl⟩

/-- Claim C10: evaluating the code at the failing input — the handle
struct malloc succeeds, the input-buffer allocation fails.  `hg_create`
does not return NULL: the `done` label calls `hg_destroy` on the handle
and then still returns the same non-NULL (now dangling) pointer, so
`HG_Create`'s NULL check does not fire, `HG_Create` returns
`HG_SUCCESS` (not `HG_NOMEM_ERROR`) and writes the dangling pointer to
the caller's handle variable. -/
theorem C10_create_returns_dangling_pointer :
    hg_create true false true 64 1 = hg_ptr.dangling
  ∧ hg_create true false true 64 1 ≠ hg_ptr.null
  ∧ HG_Create true false true 64 1 9 7
      = (hg_return_t.HG_SUCCESS, some hg_ptr.dangling)
  ∧ (HG_Create true false true 64 1 9 7).1 ≠ hg_return_t.HG_NOMEM_ERROR := by
  decide
